import Mathlib

set_option linter.unusedVariables false

namespace Kiosco

/-! Shallow embedding of `src/app/main.py` (FastAPI service "Kiosco Precios VTEX").

    A URL is modeled by the components of Python's `urllib.parse.urlparse`
    that the code reads (`netloc`, `path`, `query`).  Python `str.lower` is
    modeled ASCII-wise (`Char.toLower`), `str.isdigit` as
    nonempty-and-all-ASCII-digits, and `urllib.parse.parse_qs` and the
    `re.search` call are modeled directly below.  Upstream JSON numbers are
    rationals; Python's float `round` (round-half-to-even) is `pyRound`.
    Python's truthiness-based `or` on optional values is `pyOrStrO`,
    `pyOrNumO`, `pyOrListO`. -/

/-- The components of `urllib.parse.urlparse(raw_url)` that `main.py` reads. -/
structure ParsedUrl where
  netloc : String
  path : String
  query : String
deriving DecidableEq

/-- Python `s.lower()` restricted to ASCII case mapping. -/
def pyLower (s : String) : String :=
  String.mk (s.data.map Char.toLower)

/-- Python `s.endswith(suf)`. -/
def strEndsWith (s suf : String) : Bool :=
  suf.data.isSuffixOf s.data

/-- Python `s.isdigit()` (ASCII digits): nonempty and all characters digits. -/
def strIsDigit (s : String) : Bool :=
  !s.data.isEmpty && s.data.all Char.isDigit

/-- Value of a string of ASCII digits, as Python `int(s)` on an all-digit string. -/
def digitsToNat (ds : List Char) : Nat :=
  ds.foldl (fun n c => 10 * n + (c.toNat - 48)) 0

def strToNat (s : String) : Nat :=
  digitsToNat s.data

/-- Hexadecimal digit test used by percent-decoding. -/
def isHexDigit (c : Char) : Bool :=
  c.isDigit || ('a' ≤ c && c ≤ 'f') || ('A' ≤ c && c ≤ 'F')

def hexVal (c : Char) : Nat :=
  if c.isDigit then c.toNat - 48
  else if 'a' ≤ c && c ≤ 'f' then c.toNat - 87
  else c.toNat - 55

/-- Python `urllib.parse.unquote_plus` modeled byte-wise for ASCII data:
    `+` becomes a space and `%XY` (two hex digits) decodes to the code point
    `16*X+Y`; a `%` not followed by two hex digits is kept literally.
    (UTF-8 recombination of multi-byte sequences is not modeled; no input in
    scope uses non-ASCII percent escapes.) -/
def unquotePlus : List Char → List Char
  | [] => []
  | '+' :: rest => ' ' :: unquotePlus rest
  | '%' :: a :: b :: rest =>
    if isHexDigit a && isHexDigit b then
      Char.ofNat (16 * hexVal a + hexVal b) :: unquotePlus rest
    else
      '%' :: unquotePlus (a :: b :: rest)
  | c :: rest => c :: unquotePlus rest

/-- Split a character list on `&`, as `parse_qsl`'s separator split. -/
def splitAmp : List Char → List (List Char)
  | [] => [[]]
  | c :: cs =>
    match splitAmp cs, c == '&' with
    | r, true => [] :: r
    | [], false => [[c]]
    | g :: gs, false => (c :: g) :: gs

/-- Python `name_value.split('=', 1)` when `=` occurs: the part before the
    first `=` and everything after it. -/
def splitFirstEq : List Char → Option (List Char × List Char)
  | [] => none
  | c :: cs =>
    if c == '=' then some ([], cs)
    else (splitFirstEq cs).map (fun p => (c :: p.1, p.2))

/-- Python `urllib.parse.parse_qs(query)` as an ordered association list of
    (name, value) pairs: fields split on `&`; fields without `=` and fields
    with an empty value are dropped (default `keep_blank_values=False`);
    names and values are `unquote_plus`-decoded. -/
def parse_qs (query : String) : List (String × String) :=
  (splitAmp query.data).filterMap fun field =>
    match splitFirstEq field with
    | none => none
    | some (n, v) =>
      if v.isEmpty then none
      else some (String.mk (unquotePlus n), String.mk (unquotePlus v))

/-- Python `qs[k][0]` when `k in qs`: the first value for key `k`. -/
def firstValue (qs : List (String × String)) (k : String) : Option String :=
  (qs.find? (fun p => p.1 == k)).map (·.2)

/-- The ordered candidate query-parameter names of `extract_sku_id_from_url`. -/
def candidates : List String :=
  ["skuId", "skuid", "itemId", "item_id", "ITEM_ID", "SkuId", "ItemId"]

/-- One iteration of the candidate loop: `some` of `int(v)` when the first
    value `v` of `k` is a nonempty digit string, else `none`. -/
def candidateHit (qs : List (String × String)) (k : String) : Option Nat :=
  match firstValue qs k with
  | some v => if !v.data.isEmpty && strIsDigit v then some (strToNat v) else none
  | none => none

/-- Case-insensitive prefix strip: `some rest` when `kw` (lowercase) is a
    prefix of `cs` up to ASCII case. -/
def stripKw : List Char → List Char → Option (List Char)
  | [], cs => some cs
  | _ :: _, [] => none
  | p :: ps, c :: cs => if c.toLower == p then stripKw ps cs else none

/-- The regex alternatives `(?:sku|skuid|item|itemid|item_id)` in order. -/
def kwAlternatives : List (List Char) :=
  [['s','k','u'], ['s','k','u','i','d'], ['i','t','e','m'],
   ['i','t','e','m','i','d'], ['i','t','e','m','_','i','d']]

/-- Try the pattern `(?:sku|skuid|item|itemid|item_id)[=/\-](\d+)` anchored at
    the head of `cs`, alternatives in order with backtracking, `\d+` greedy;
    returns group 1 as a number. -/
def matchKwAt (cs : List Char) : Option Nat :=
  kwAlternatives.findSome? fun kw =>
    match stripKw kw cs with
    | none => none
    | some rest =>
      match rest with
      | [] => none
      | c :: cs2 =>
        if c == '=' || c == '/' || c == '-' then
          let ds := cs2.takeWhile Char.isDigit
          if ds.isEmpty then none else some (digitsToNat ds)
        else none

/-- `re.search` of the pattern: leftmost position wins. -/
def reSearch : List Char → Option Nat
  | [] => none
  | c :: cs =>
    match matchKwAt (c :: cs) with
    | some n => some n
    | none => reSearch cs

/-- `extract_sku_id_from_url` from `main.py`: the ordered candidate
    query-parameter scan, then the regex fallback over `path + "?" + query`. -/
def extract_sku_id_from_url (u : ParsedUrl) : Option Nat :=
  let qs := parse_qs u.query
  match candidates.findSome? (candidateHit qs) with
  | some n => some n
  | none => reSearch (u.path ++ "?" ++ u.query).data

/-! ### Environment configuration (module top level of `main.py`) -/

/-- The environment variables read at startup (`os.getenv`): `none` is an
    unset variable. -/
structure Env where
  VTEX_ACCOUNT : Option String
  VTEX_APP_KEY : Option String
  VTEX_APP_TOKEN : Option String
  STORE_DOMAIN : Option String
  SALES_CHANNEL : Option String
deriving DecidableEq

/-- Python truthiness of `os.getenv`'s result: `None` and `""` are falsy. -/
def pyTruthyStrOpt : Option String → Bool
  | none => false
  | some s => !s.isEmpty

/-- The configuration the handlers read after a successful startup. -/
structure Config where
  account : String
  appKey : String
  appToken : String
  storeDomain : String
  salesChannel : String
deriving DecidableEq

/-- Module-level startup of `main.py`: reads the five variables, applying the
    defaults of `STORE_DOMAIN` and `SALES_CHANNEL`, and raises `RuntimeError`
    when any of the three credentials is falsy (unset or empty). -/
def loadConfig (e : Env) : Except String Config :=
  if !pyTruthyStrOpt e.VTEX_ACCOUNT || !pyTruthyStrOpt e.VTEX_APP_KEY
     || !pyTruthyStrOpt e.VTEX_APP_TOKEN then
    .error "Missing VTEX_ACCOUNT / VTEX_APP_KEY / VTEX_APP_TOKEN environment variables"
  else
    .ok { account := e.VTEX_ACCOUNT.getD ""
          appKey := e.VTEX_APP_KEY.getD ""
          appToken := e.VTEX_APP_TOKEN.getD ""
          storeDomain := e.STORE_DOMAIN.getD "www.tiendacolucci.com.ar"
          salesChannel := e.SALES_CHANNEL.getD "1" }

/-! ### Failures and upstream call outcomes -/

/-- How a handler run ends when it does not return: a raised `HTTPException`
    (FastAPI answers with its status and detail) or any other uncaught
    exception (`httpx` errors, JSON decode errors — FastAPI answers 500). -/
inductive Failure where
  | httpExc (status : Nat) (detail : String)
  | exc
deriving DecidableEq

/-- The HTTP status FastAPI sends for a handler outcome: 200 on a returned
    value, the carried status for a raised `HTTPException`, and 500
    (Internal Server Error) for any other uncaught exception. -/
def statusOf {α : Type} : Except Failure α → Nat
  | .ok _ => 200
  | .error (.httpExc s _) => s
  | .error .exc => 500

/-- Outcome of one outbound `httpx` request: a transport-level exception
    (connection error, timeout), or a response with a status code and a body
    that either parses as JSON of the expected shape (`some`) or does not
    parse (`none`, so `r.json()` raises). -/
inductive CallResult (α : Type) where
  | netErr
  | resp (status : Nat) (body : Option α)
deriving DecidableEq

/-- `httpx` success range: `raise_for_status` raises unless the status is 2xx. -/
def is2xx (n : Nat) : Bool :=
  200 ≤ n && n < 300

/-! ### Python-truthiness `or` on optional JSON values -/

/-- `a or b` on optional strings: an absent or empty `a` yields `b` verbatim. -/
def pyOrStrO (a b : Option String) : Option String :=
  match a with
  | some s => if s.isEmpty then b else some s
  | none => b

/-- `a or b` where `b` is a plain string (the final default of a chain). -/
def pyOrStrD (a : Option String) (b : String) : String :=
  match a with
  | some s => if s.isEmpty then b else s
  | none => b

/-- `a or b` on optional numbers: an absent or zero `a` yields `b` verbatim. -/
def pyOrNumO (a b : Option ℚ) : Option ℚ :=
  match a with
  | some q => if q = 0 then b else some q
  | none => b

/-- `a or b` on optional lists: an absent or empty `a` yields `b` verbatim. -/
def pyOrListO {α : Type} (a b : Option (List α)) : Option (List α) :=
  match a with
  | some l => if l.isEmpty then b else some l
  | none => b

/-! ### `validate_domain` -/

/-- `validate_domain` from `main.py`: lowercases the netloc, rejects an empty
    host, and accepts exactly the configured domain or a `.`-separated
    subdomain of it. -/
def validate_domain (cfg : Config) (u : ParsedUrl) : Except Failure Unit :=
  let host := pyLower u.netloc
  if host.isEmpty then .error (.httpExc 400 "URL sin dominio")
  else if host == pyLower cfg.storeDomain
          || strEndsWith host ("." ++ pyLower cfg.storeDomain) then .ok ()
  else .error (.httpExc 400 "Dominio no permitido")

/-! ### `get_sku_basic` -/

/-- The fields of the SKU JSON that `resolve` reads for the product name. -/
structure SkuJson where
  NameComplete : Option String
  Name : Option String
  name : Option String
  nameComplete : Option String
deriving DecidableEq

/-- `get_sku_basic` from `main.py`: 404 becomes `HTTPException 404`, any other
    non-2xx status or transport error or unparseable body is an uncaught
    exception, otherwise the parsed JSON is returned. -/
def get_sku_basic (r : CallResult SkuJson) : Except Failure SkuJson :=
  match r with
  | .netErr => .error .exc
  | .resp status body =>
    if status = 404 then .error (.httpExc 404 "SKU no existe")
    else if !is2xx status then .error .exc
    else
      match body with
      | some j => .ok j
      | none => .error .exc

/-! ### `get_pricing_price_any_visibility` -/

/-- One entry of the `fixedPrices` list of the pricing JSON. -/
structure FixedPrice where
  tradePolicyId : Option String
  TradePolicyId : Option String
  value : Option ℚ
  Value : Option ℚ
  listPrice : Option ℚ
  ListPrice : Option ℚ
deriving DecidableEq

/-- The fields of the pricing JSON that the code reads (both key casings). -/
structure PricingJson where
  fixedPrices : Option (List FixedPrice)
  FixedPrices : Option (List FixedPrice)
  basePrice : Option ℚ
  BasePrice : Option ℚ
  listPrice : Option ℚ
  ListPrice : Option ℚ
deriving DecidableEq

/-- The value `get_pricing_price_any_visibility` returns (`raw` omitted). -/
structure PricingOut where
  selling : ℚ
  list : Option ℚ
deriving DecidableEq

/-- `data.get("fixedPrices") or data.get("FixedPrices") or []`. -/
def effFixedList (d : PricingJson) : List FixedPrice :=
  (pyOrListO d.fixedPrices d.FixedPrices).getD []

/-- `fp.get("tradePolicyId") or fp.get("TradePolicyId")`. -/
def fpTradePolicy (fp : FixedPrice) : Option String :=
  pyOrStrO fp.tradePolicyId fp.TradePolicyId

/-- The loop test: `tpid is not None and str(tpid) == str(sc)` (trade policy
    ids are modeled by their `str` image). -/
def matchesChannel (sc : String) (fp : FixedPrice) : Bool :=
  match fpTradePolicy fp with
  | some t => t == sc
  | none => false

/-- `get_pricing_price_any_visibility` from `main.py`: 404 becomes
    `HTTPException 404`, other non-2xx or transport or parse failures raise;
    otherwise the first fixed price matching the sales channel supplies
    `value or Value` (and may override the list price), falling back to
    `basePrice or BasePrice`, and a still-`None` selling price is a 404. -/
def get_pricing_price_any_visibility (sc : String) (r : CallResult PricingJson) :
    Except Failure PricingOut :=
  match r with
  | .netErr => .error .exc
  | .resp status body =>
    if status = 404 then .error (.httpExc 404 "SKU sin precio configurado")
    else if !is2xx status then .error .exc
    else
      match body with
      | none => .error .exc
      | some data =>
        let fixed := (effFixedList data).find? (matchesChannel sc)
        let base_price := pyOrNumO data.basePrice data.BasePrice
        let list_price0 := pyOrNumO data.listPrice data.ListPrice
        let selling0 :=
          match fixed with
          | some fp => pyOrNumO fp.value fp.Value
          | none => none
        let list_price :=
          match fixed with
          | some fp => pyOrNumO (pyOrNumO fp.listPrice fp.ListPrice) list_price0
          | none => list_price0
        let selling := match selling0 with
          | some s => some s
          | none => base_price
        match selling with
        | some s => .ok { selling := s, list := list_price }
        | none => .error (.httpExc 404 "SKU sin precio configurado")

/-! ### `get_stock_quantity_if_possible` -/

/-- One warehouse entry of the inventory `balance` list. -/
structure BalanceEntry where
  totalQuantity : Option Int
  availableQuantity : Option Int
deriving DecidableEq

/-- The fields of the inventory JSON that the code reads (both key casings). -/
structure InventoryJson where
  balance : Option (List BalanceEntry)
  Balance : Option (List BalanceEntry)
deriving DecidableEq

/-- `data.get("balance") or data.get("Balance") or []`. -/
def effBalances (d : InventoryJson) : List BalanceEntry :=
  (pyOrListO d.balance d.Balance).getD []

/-- The accumulation loop over warehouse entries: running total and the
    `found_any` flag, taking `totalQuantity` when present, else
    `availableQuantity`, else skipping the entry. -/
def sumBalances (l : List BalanceEntry) : Int × Bool :=
  l.foldl
    (fun acc b =>
      match b.totalQuantity with
      | some tq => (acc.1 + tq, true)
      | none =>
        match b.availableQuantity with
        | some aq => (acc.1 + aq, true)
        | none => acc)
    (0, false)

/-- `get_stock_quantity_if_possible` from `main.py`: a 403 or 404 status
    returns `(None, None)` directly; every exception (transport error,
    `raise_for_status` on another non-2xx status, JSON decode failure) is
    caught and also yields `(None, None)`; otherwise the warehouse balances
    are summed, `(None, None)` when no entry had a usable field, else the
    total and whether it is positive. -/
def get_stock_quantity_if_possible (r : CallResult InventoryJson) :
    Option Int × Option Bool :=
  match r with
  | .netErr => (none, none)
  | .resp status body =>
    if status == 403 || status == 404 then (none, none)
    else if !is2xx status then (none, none)
    else
      match body with
      | none => (none, none)
      | some data =>
        let res := sumBalances (effBalances data)
        if res.2 then (some res.1, some (decide (0 < res.1)))
        else (none, none)

/-! ### Python `round` and the `/resolve` handler -/

/-- Python 3 `round` on one argument: round half to even. -/
def pyRound (q : ℚ) : ℤ :=
  let f := ⌊q⌋
  let r := q - f
  if r < 1/2 then f
  else if 1/2 < r then f + 1
  else if f % 2 = 0 then f else f + 1

/-- The detail of the "no identifier" 400 of `/resolve`. -/
def noSkuDetail : String :=
  "No pude detectar el SKU/ITEM_ID en la URL del QR. Usá un QR que incluya ?ITEM_ID=12345 (o skuId=12345)."

/-- The upstream responses one `/resolve` request observes, in call order. -/
structure Oracles where
  skuResp : CallResult SkuJson
  priceResp : CallResult PricingJson
  stockResp : CallResult InventoryJson
deriving DecidableEq

/-- The JSON object a successful `/resolve` returns. -/
structure ResolveOut where
  skuId : Nat
  productName : String
  sellingPrice : ℤ
  listPrice : Option ℤ
  availableQuantity : Option Int
  inStock : Option Bool
  source : String
deriving DecidableEq

/-- The `/resolve` handler of `main.py`: domain validation, identifier
    extraction (`if not sku_id` also rejects an extracted 0), SKU lookup,
    the product-name truthiness chain, pricing, best-effort stock, and the
    cent conversions `int(round(x * 100))`. -/
def resolve (cfg : Config) (u : ParsedUrl) (o : Oracles) : Except Failure ResolveOut :=
  match validate_domain cfg u with
  | .error e => .error e
  | .ok _ =>
    match extract_sku_id_from_url u with
    | none => .error (.httpExc 400 noSkuDetail)
    | some sku_id =>
      if sku_id = 0 then .error (.httpExc 400 noSkuDetail)
      else
        match get_sku_basic o.skuResp with
        | .error e => .error e
        | .ok sku =>
          let product_name :=
            pyOrStrD (pyOrStrO (pyOrStrO (pyOrStrO sku.NameComplete sku.Name)
              sku.name) sku.nameComplete) ("SKU " ++ toString sku_id)
          match get_pricing_price_any_visibility cfg.salesChannel o.priceResp with
          | .error e => .error e
          | .ok pricing =>
            let stock := get_stock_quantity_if_possible o.stockResp
            let selling_cents := pyRound (pricing.selling * 100)
            let list_cents := pricing.list.map (fun l => pyRound (l * 100))
            .ok { skuId := sku_id
                  productName := product_name
                  sellingPrice := selling_cents
                  listPrice := list_cents
                  availableQuantity := stock.1
                  inStock := stock.2
                  source := "pricing_api" }

/-! ### Derived notions used by the claim statements -/

/-- The selling-price candidate the matching fixed-price entry contributes:
    `fixed.get("value") or fixed.get("Value")` of the first entry whose trade
    policy matches the sales channel, `None` when no entry matches. -/
def sellingFromFixed (sc : String) (d : PricingJson) : Option ℚ :=
  match (effFixedList d).find? (matchesChannel sc) with
  | some fp => pyOrNumO fp.value fp.Value
  | none => none

/-- The quantity one warehouse entry contributes to the sum: `totalQuantity`
    when present, else `availableQuantity`, else nothing. -/
def entryContribution (b : BalanceEntry) : Int :=
  match b.totalQuantity with
  | some tq => tq
  | none =>
    match b.availableQuantity with
    | some aq => aq
    | none => 0

/-- Whether a warehouse entry carries a usable quantity field. -/
def entryHasField (b : BalanceEntry) : Bool :=
  b.totalQuantity.isSome || b.availableQuantity.isSome

/-- The inventory-call outcomes the stock claim calls error outcomes: a
    transport exception, a 403 or 404 status, any other non-2xx status, an
    unparseable body, or a body with no usable quantity field. -/
def stockErrorOutcome : CallResult InventoryJson → Prop
  | .netErr => True
  | .resp st body =>
    st = 403 ∨ st = 404 ∨ is2xx st = false ∨ body = none ∨
      ∃ d, body = some d ∧
        ∀ b ∈ effBalances d, b.totalQuantity = none ∧ b.availableQuantity = none

/-! ### Concrete example inputs used by the witnesses -/

def cfgEx : Config :=
  { account := "acct", appKey := "key", appToken := "token",
    storeDomain := "www.tiendacolucci.com.ar", salesChannel := "1" }

def urlOk : ParsedUrl :=
  { netloc := "www.tiendacolucci.com.ar", path := "/p", query := "skuId=12345" }

def urlBad : ParsedUrl :=
  { netloc := "evil.com", path := "/p", query := "skuId=12345" }

def urlZero : ParsedUrl :=
  { netloc := "www.tiendacolucci.com.ar", path := "/p", query := "skuId=0" }

def urlPathSku : ParsedUrl :=
  { netloc := "www.tiendacolucci.com.ar", path := "/sku/998", query := "" }

def urlNoId : ParsedUrl :=
  { netloc := "www.tiendacolucci.com.ar", path := "/nothing", query := "a=1" }

def skuEx : SkuJson :=
  { NameComplete := some "Producto X", Name := none, name := none, nameComplete := none }

def fpEx : FixedPrice :=
  { tradePolicyId := some "1", TradePolicyId := none,
    value := some (199.9 : ℚ), Value := none, listPrice := none, ListPrice := none }

def priceEx : PricingJson :=
  { fixedPrices := some [fpEx], FixedPrices := none,
    basePrice := some 50, BasePrice := none, listPrice := none, ListPrice := none }

def invEx : InventoryJson :=
  { balance := some [⟨some 3, none⟩, ⟨none, some 4⟩], Balance := none }

def oEx : Oracles :=
  { skuResp := .resp 200 (some skuEx), priceResp := .resp 200 (some priceEx),
    stockResp := .resp 200 (some invEx) }

def oStock403 : Oracles := { oEx with stockResp := .resp 403 none }

def oSku500 : Oracles := { oEx with skuResp := .resp 500 none }

/-- A fixed-price entry whose `value` is 0 (Python-falsy). -/
def fpZero : FixedPrice := { fpEx with value := some 0 }

/-- Pricing data with a matching fixed price of 0 and a base price of 50. -/
def pdZero : PricingJson := { priceEx with fixedPrices := some [fpZero] }

/-! ### Helper lemmas -/

/-- A domain-validation failure short-circuits `resolve` with the 400 raised
    by `validate_domain`, untouched by anything downstream. -/
theorem resolve_of_validate_error (cfg : Config) (u : ParsedUrl) (o : Oracles)
    (e : Failure) (h : validate_domain cfg u = .error e) :
    resolve cfg u o = .error e := by
  simp only [resolve, h]

/-- With a valid domain and a nonzero extracted id, `resolve` propagates a
    `get_sku_basic` failure unchanged. -/
theorem resolve_of_sku_error (cfg : Config) (u : ParsedUrl) (o : Oracles)
    (n : Nat) (e : Failure)
    (hdom : validate_domain cfg u = .ok ())
    (hext : extract_sku_id_from_url u = some n) (hn : n ≠ 0)
    (hsku : get_sku_basic o.skuResp = .error e) :
    resolve cfg u o = .error e := by
  simp [resolve, hdom, hext, hn, hsku]

/-- With a valid domain, nonzero id and successful SKU lookup, `resolve`
    propagates a pricing failure unchanged. -/
theorem resolve_of_pricing_error (cfg : Config) (u : ParsedUrl) (o : Oracles)
    (n : Nat) (sj : SkuJson) (e : Failure)
    (hdom : validate_domain cfg u = .ok ())
    (hext : extract_sku_id_from_url u = some n) (hn : n ≠ 0)
    (hsku : get_sku_basic o.skuResp = .ok sj)
    (hpr : get_pricing_price_any_visibility cfg.salesChannel o.priceResp = .error e) :
    resolve cfg u o = .error e := by
  simp [resolve, hdom, hext, hn, hsku, hpr]

/-- The fully successful shape of `resolve`. -/
theorem resolve_of_success (cfg : Config) (u : ParsedUrl) (o : Oracles)
    (n : Nat) (sj : SkuJson) (ps : PricingOut)
    (hdom : validate_domain cfg u = .ok ())
    (hext : extract_sku_id_from_url u = some n) (hn : n ≠ 0)
    (hsku : get_sku_basic o.skuResp = .ok sj)
    (hpr : get_pricing_price_any_visibility cfg.salesChannel o.priceResp = .ok ps) :
    resolve cfg u o = .ok
      { skuId := n
        productName := pyOrStrD (pyOrStrO (pyOrStrO (pyOrStrO sj.NameComplete sj.Name)
          sj.name) sj.nameComplete) ("SKU " ++ toString n)
        sellingPrice := pyRound (ps.selling * 100)
        listPrice := ps.list.map (fun l => pyRound (l * 100))
        availableQuantity := (get_stock_quantity_if_possible o.stockResp).1
        inStock := (get_stock_quantity_if_possible o.stockResp).2
        source := "pricing_api" } := by
  simp [resolve, hdom, hext, hn, hsku, hpr]

/-- A mismatching host makes `validate_domain` fail with one of its two
    400 details, chosen by host emptiness. -/
theorem validate_domain_mismatch (cfg : Config) (u : ParsedUrl)
    (h1 : pyLower u.netloc ≠ pyLower cfg.storeDomain)
    (h2 : strEndsWith (pyLower u.netloc) ("." ++ pyLower cfg.storeDomain) = false) :
    validate_domain cfg u = .error (.httpExc 400
      (if (pyLower u.netloc).isEmpty then "URL sin dominio" else "Dominio no permitido")) := by
  by_cases hE : (pyLower u.netloc).isEmpty
  · simp [validate_domain, hE]
  · simp [validate_domain, hE, h1, h2]

/-- `get_stock_quantity_if_possible` only ever returns the unknown pair or a
    total together with its positivity. -/
theorem stock_shape (rc : CallResult InventoryJson) :
    get_stock_quantity_if_possible rc = (none, none) ∨
    ∃ t : Int, get_stock_quantity_if_possible rc = (some t, some (decide (0 < t))) := by
  cases rc with
  | netErr => exact Or.inl rfl
  | resp st body =>
    by_cases h1 : (st == 403 || st == 404) = true
    · exact Or.inl (by simp [get_stock_quantity_if_possible, h1])
    · by_cases h2 : (!is2xx st) = true
      · exact Or.inl (by simp [get_stock_quantity_if_possible, h1, h2])
      · cases body with
        | none => exact Or.inl (by simp [get_stock_quantity_if_possible, h1, h2])
        | some d =>
          by_cases hf : (sumBalances (effBalances d)).2 = true
          · exact Or.inr ⟨(sumBalances (effBalances d)).1,
              by simp [get_stock_quantity_if_possible, h1, h2, hf]⟩
          · exact Or.inl (by simp [get_stock_quantity_if_possible, h1, h2, hf])

/-! ### C1 -/

/-- C1: a URL whose lowercased host neither equals the configured store
    domain nor ends with `.` + that domain makes `/resolve` fail with one of
    the two 400 domain errors, for every path, query and upstream behavior
    (the error is the same for all oracles, so it precedes extraction and
    any upstream call). -/
theorem C1_bad_domain_rejected (cfg : Config) (u : ParsedUrl)
    (h1 : pyLower u.netloc ≠ pyLower cfg.storeDomain)
    (h2 : strEndsWith (pyLower u.netloc) ("." ++ pyLower cfg.storeDomain) = false) :
    ∃ d, (d = "URL sin dominio" ∨ d = "Dominio no permitido") ∧
      ∀ o : Oracles, resolve cfg u o = .error (.httpExc 400 d) := by
  refine ⟨_, ?_, fun o =>
    resolve_of_validate_error cfg u o _ (validate_domain_mismatch cfg u h1 h2)⟩
  by_cases hE : (pyLower u.netloc).isEmpty
  · simp [hE]
  · simp [hE]

theorem C1_bad_domain_rejected_witness :
    ∃ d, (d = "URL sin dominio" ∨ d = "Dominio no permitido") ∧
      ∀ o : Oracles, resolve cfgEx urlBad o = .error (.httpExc 400 d) :=
  C1_bad_domain_rejected cfgEx urlBad (by decide) (by decide)

/-! ### C8 -/

/-- C8: an unset credential variable (account, key or token) makes startup
    fail with the fatal `RuntimeError`; no configuration — hence no request
    handler — ever comes out of such an environment. -/
theorem C8_missing_credentials_fatal (e : Env)
    (h : e.VTEX_ACCOUNT = none ∨ e.VTEX_APP_KEY = none ∨ e.VTEX_APP_TOKEN = none) :
    loadConfig e =
      .error "Missing VTEX_ACCOUNT / VTEX_APP_KEY / VTEX_APP_TOKEN environment variables" := by
  rcases h with h | h | h <;> simp [loadConfig, pyTruthyStrOpt, h]

def envMissing : Env :=
  { VTEX_ACCOUNT := none, VTEX_APP_KEY := some "k", VTEX_APP_TOKEN := some "t",
    STORE_DOMAIN := none, SALES_CHANNEL := none }

theorem C8_missing_credentials_fatal_witness :
    loadConfig envMissing =
      .error "Missing VTEX_ACCOUNT / VTEX_APP_KEY / VTEX_APP_TOKEN environment variables" :=
  C8_missing_credentials_fatal envMissing (Or.inl rfl)

/-! ### C9 -/

/-- C9: extraction can return 0 (e.g. for `skuId=0`), but the handler's
    truthiness test `if not sku_id` then raises the 400 "no identifier"
    error, so SKU id 0 is never looked up. -/
theorem C9_sku_zero_unreachable :
    (∀ (cfg : Config) (u : ParsedUrl) (o : Oracles),
        validate_domain cfg u = .ok () →
        extract_sku_id_from_url u = some 0 →
        resolve cfg u o = .error (.httpExc 400 noSkuDetail)) ∧
    extract_sku_id_from_url urlZero = some 0 := by
  constructor
  · intro cfg u o hdom hext
    simp [resolve, hdom, hext]
  · decide

theorem C9_sku_zero_unreachable_witness :
    resolve cfgEx urlZero oEx = .error (.httpExc 400 noSkuDetail) :=
  C9_sku_zero_unreachable.1 cfgEx urlZero oEx (by rfl) (by decide)

/-! ### C10 -/

/-- C10: in every 200 response, `availableQuantity` and `inStock` are both
    absent or both present, and when present `inStock` is exactly the
    positivity of `availableQuantity`. -/
theorem C10_stock_consistency (cfg : Config) (u : ParsedUrl) (o : Oracles)
    (r : ResolveOut) (h : resolve cfg u o = .ok r) :
    (r.availableQuantity = none ↔ r.inStock = none) ∧
    (∀ q : Int, r.availableQuantity = some q → r.inStock = some (decide (0 < q))) := by
  unfold resolve at h
  split at h
  · simp at h
  · split at h
    · simp at h
    · split at h
      · simp at h
      · split at h
        · simp at h
        · split at h
          · simp at h
          · simp only [Except.ok.injEq] at h
            subst h
            rcases stock_shape o.stockResp with hs | ⟨t, hs⟩
            · simp [hs]
            · refine ⟨by simp [hs], fun q hq => ?_⟩
              simp only [hs] at hq ⊢
              cases hq
              rfl

/-- The `PricingOut` the example pricing data produces. -/
def psEx : PricingOut := { selling := (199.9 : ℚ), list := none }

theorem pricingEx_ok :
    get_pricing_price_any_visibility "1" (.resp 200 (some priceEx)) = .ok psEx := by
  simp +decide [get_pricing_price_any_visibility, priceEx, fpEx, psEx, effFixedList,
    pyOrListO, matchesChannel, fpTradePolicy, pyOrStrO, pyOrNumO, is2xx,
    (by norm_num : (199.9 : ℚ) ≠ 0)]

/-- The response `/resolve` produces on the fully successful example run. -/
def rEx : ResolveOut :=
  { skuId := 12345, productName := "Producto X",
    sellingPrice := pyRound ((199.9 : ℚ) * 100),
    listPrice := none, availableQuantity := some 7, inStock := some true,
    source := "pricing_api" }

theorem resolveEx_ok : resolve cfgEx urlOk oEx = .ok rEx := by
  rw [resolve_of_success cfgEx urlOk oEx 12345 skuEx psEx (by rfl) (by decide)
    (by decide) (by rfl) pricingEx_ok]
  rfl

theorem C10_stock_consistency_witness :
    rEx.inStock = some (decide ((0 : Int) < 7)) :=
  (C10_stock_consistency cfgEx urlOk oEx rEx resolveEx_ok).2 7 (by decide)

/-- `findSome?` skips a prefix on which the function yields nothing. -/
theorem findSome?_append_of_none {α β : Type} (f : α → Option β) (l1 l2 : List α)
    (h : ∀ x ∈ l1, f x = none) :
    List.findSome? f (l1 ++ l2) = List.findSome? f l2 := by
  induction l1 with
  | nil => rfl
  | cons a as ih =>
    have ha : f a = none := h a (by simp)
    simp only [List.cons_append, List.findSome?, ha]
    exact ih (fun x hx => h x (by simp [hx]))

/-- `findSome?` yields nothing when the function does on every element. -/
theorem findSome?_eq_none_of_all {α β : Type} (f : α → Option β) (l : List α)
    (h : ∀ x ∈ l, f x = none) :
    List.findSome? f l = none := by
  induction l with
  | nil => rfl
  | cons a as ih =>
    have ha : f a = none := h a (by simp)
    simp only [List.findSome?, ha]
    exact ih (fun x hx => h x (by simp [hx]))

/-! ### C2 -/

/-- C2: identifier extraction first walks the fixed, case-sensitive candidate
    list in order — the first name whose first query value is all digits
    yields exactly that numeric value; when no candidate matches it falls
    back to the case-insensitive keyword regex over `path + "?" + query`; and
    when that also finds nothing, extraction returns no identifier. -/
theorem C2_extraction_order :
    (∀ (u : ParsedUrl) (pre post : List String) (k v : String),
        candidates = pre ++ k :: post →
        (∀ k' ∈ pre, candidateHit (parse_qs u.query) k' = none) →
        firstValue (parse_qs u.query) k = some v →
        strIsDigit v = true →
        extract_sku_id_from_url u = some (strToNat v)) ∧
    (∀ u : ParsedUrl,
        (∀ k ∈ candidates, candidateHit (parse_qs u.query) k = none) →
        extract_sku_id_from_url u = reSearch ((u.path ++ "?" ++ u.query).data)) ∧
    (∀ u : ParsedUrl,
        (∀ k ∈ candidates, candidateHit (parse_qs u.query) k = none) →
        reSearch ((u.path ++ "?" ++ u.query).data) = none →
        extract_sku_id_from_url u = none) := by
  refine ⟨?_, ?_, ?_⟩
  · intro u pre post k v hsplit hpre hv hd
    have h1 : (!v.data.isEmpty) = true := by
      have hd' := hd
      unfold strIsDigit at hd'
      rw [Bool.and_eq_true] at hd'
      exact hd'.1
    have hk : candidateHit (parse_qs u.query) k = some (strToNat v) := by
      simp [candidateHit, hv, h1, hd]
    simp only [extract_sku_id_from_url]
    rw [hsplit, findSome?_append_of_none _ _ _ hpre]
    simp [List.findSome?, hk]
  · intro u hall
    simp only [extract_sku_id_from_url]
    rw [findSome?_eq_none_of_all _ _ hall]
  · intro u hall hre
    simp only [extract_sku_id_from_url]
    rw [findSome?_eq_none_of_all _ _ hall]
    exact hre

theorem C2_extraction_order_witness :
    extract_sku_id_from_url urlOk = some (strToNat "12345") ∧
    extract_sku_id_from_url urlPathSku =
      reSearch ((urlPathSku.path ++ "?" ++ urlPathSku.query).data) ∧
    extract_sku_id_from_url urlNoId = none :=
  ⟨C2_extraction_order.1 urlOk []
      ["skuid", "itemId", "item_id", "ITEM_ID", "SkuId", "ItemId"]
      "skuId" "12345" rfl (by simp) (by decide) (by decide),
   C2_extraction_order.2.1 urlPathSku (by decide),
   C2_extraction_order.2.2 urlNoId (by decide) (by decide)⟩

/-! ### C3 -/

/-- C3: on a successful run the response's cent fields are
    `round(value * 100)` applied independently to the selling and the list
    price, `round(199.9 * 100)` is the integer 19990, and an absent upstream
    list price yields an absent `listPrice` field, never 0. -/
theorem C3_cents_conversion (cfg : Config) (u : ParsedUrl) (o : Oracles)
    (n : Nat) (sj : SkuJson) (ps : PricingOut)
    (hdom : validate_domain cfg u = .ok ())
    (hext : extract_sku_id_from_url u = some n) (hn : n ≠ 0)
    (hsku : get_sku_basic o.skuResp = .ok sj)
    (hpr : get_pricing_price_any_visibility cfg.salesChannel o.priceResp = .ok ps) :
    (∃ r, resolve cfg u o = .ok r ∧
        r.sellingPrice = pyRound (ps.selling * 100) ∧
        r.listPrice = ps.list.map (fun l => pyRound (l * 100)) ∧
        (ps.list = none → r.listPrice = none)) ∧
    pyRound ((199.9 : ℚ) * 100) = 19990 := by
  refine ⟨⟨_, resolve_of_success cfg u o n sj ps hdom hext hn hsku hpr, rfl, rfl, ?_⟩,
    by norm_num [pyRound]⟩
  intro h
  simp [h]

theorem C3_cents_conversion_witness :
    (∃ r, resolve cfgEx urlOk oEx = .ok r ∧
        r.sellingPrice = pyRound (psEx.selling * 100) ∧
        r.listPrice = psEx.list.map (fun l => pyRound (l * 100)) ∧
        (psEx.list = none → r.listPrice = none)) ∧
    pyRound ((199.9 : ℚ) * 100) = 19990 :=
  C3_cents_conversion cfgEx urlOk oEx 12345 skuEx psEx (by rfl) (by decide)
    (by decide) (by rfl) pricingEx_ok

/-! ### Balance summation -/

/-- The loop of `get_stock_quantity_if_possible` computes the sum of the
    per-entry contributions together with whether any entry had a field. -/
theorem sumBalances_eq (l : List BalanceEntry) :
    sumBalances l = ((l.map entryContribution).sum, l.any entryHasField) := by
  have go : ∀ (l : List BalanceEntry) (t : Int) (f : Bool),
      l.foldl
        (fun acc b =>
          match b.totalQuantity with
          | some tq => (acc.1 + tq, true)
          | none =>
            match b.availableQuantity with
            | some aq => (acc.1 + aq, true)
            | none => acc)
        (t, f)
      = (t + (l.map entryContribution).sum, f || l.any entryHasField) := by
    intro l
    induction l with
    | nil => intro t f; simp
    | cons b bs ih =>
      intro t f
      cases hb : b.totalQuantity with
      | some tq =>
        simp only [List.foldl_cons, hb, List.map_cons, List.sum_cons, List.any_cons, ih,
          entryContribution, entryHasField]
        simp [Prod.mk.injEq, add_assoc]
      | none =>
        cases hb2 : b.availableQuantity with
        | some aq =>
          simp only [List.foldl_cons, hb, hb2, List.map_cons, List.sum_cons, List.any_cons,
            ih, entryContribution, entryHasField]
          simp [Prod.mk.injEq, add_assoc]
        | none =>
          simp only [List.foldl_cons, hb, hb2, List.map_cons, List.sum_cons, List.any_cons,
            ih, entryContribution, entryHasField]
          simp [Prod.mk.injEq]
  simpa [sumBalances] using go l 0 false

/-- Bounds drawn from a 2xx status. -/
theorem is2xx_facts (st : Nat) (h : is2xx st = true) :
    (st == 403 || st == 404) = false ∧ st ≠ 404 := by
  unfold is2xx at h
  simp only [Bool.and_eq_true, decide_eq_true_eq] at h
  refine ⟨?_, ?_⟩
  · simp only [Bool.or_eq_false_iff, beq_eq_false_iff_ne, ne_eq]
    omega
  · omega

/-- Every claim-listed error outcome of the inventory call yields the
    unknown pair. -/
theorem stock_error_unknown (rc : CallResult InventoryJson)
    (h : stockErrorOutcome rc) :
    get_stock_quantity_if_possible rc = (none, none) := by
  cases rc with
  | netErr => rfl
  | resp st body =>
    by_cases h1 : (st == 403 || st == 404) = true
    · simp [get_stock_quantity_if_possible, h1]
    · by_cases h2 : (!is2xx st) = true
      · simp [get_stock_quantity_if_possible, h1, h2]
      · have h2xx : is2xx st = true := by
          cases hst : is2xx st
          · rw [hst] at h2; simp at h2
          · rfl
        rcases h with h | h | h | h | ⟨d, hd, hno⟩
        · exact absurd (by simp [h]) h1
        · exact absurd (by simp [h]) h1
        · rw [h2xx] at h; simp at h
        · subst h
          simp [get_stock_quantity_if_possible, h1, h2]
        · subst hd
          have hf : (sumBalances (effBalances d)).2 = false := by
            rw [sumBalances_eq]
            simp only [List.any_eq_false]
            intro b hb
            have hbn := hno b hb
            simp [entryHasField, hbn.1, hbn.2]
          simp [get_stock_quantity_if_possible, h1, h2, hf]

/-! ### C5 -/

/-- C5: a stock lookup that fails in any of the claim's ways (exception, 403,
    404, other non-2xx, unusable payload) never blocks the request — the
    response is still a 200 with both stock fields absent and the pricing
    fields populated. -/
theorem C5_stock_never_blocks (cfg : Config) (u : ParsedUrl) (o : Oracles)
    (n : Nat) (sj : SkuJson) (ps : PricingOut)
    (hdom : validate_domain cfg u = .ok ())
    (hext : extract_sku_id_from_url u = some n) (hn : n ≠ 0)
    (hsku : get_sku_basic o.skuResp = .ok sj)
    (hpr : get_pricing_price_any_visibility cfg.salesChannel o.priceResp = .ok ps)
    (hstock : stockErrorOutcome o.stockResp) :
    ∃ r, resolve cfg u o = .ok r ∧
      r.availableQuantity = none ∧ r.inStock = none ∧
      r.sellingPrice = pyRound (ps.selling * 100) ∧
      r.listPrice = ps.list.map (fun l => pyRound (l * 100)) := by
  refine ⟨_, resolve_of_success cfg u o n sj ps hdom hext hn hsku hpr, ?_, ?_, rfl, rfl⟩
  · simp [stock_error_unknown _ hstock]
  · simp [stock_error_unknown _ hstock]

theorem C5_stock_never_blocks_witness :
    ∃ r, resolve cfgEx urlOk oStock403 = .ok r ∧
      r.availableQuantity = none ∧ r.inStock = none ∧
      r.sellingPrice = pyRound (psEx.selling * 100) ∧
      r.listPrice = psEx.list.map (fun l => pyRound (l * 100)) :=
  C5_stock_never_blocks cfgEx urlOk oStock403 12345 skuEx psEx (by rfl) (by decide)
    (by decide) (by rfl) pricingEx_ok (Or.inl rfl)

/-! ### C6 -/

/-- C6: on a parsed 2xx inventory response the reported quantity is the sum
    over the warehouse entries of `totalQuantity`-else-`availableQuantity`,
    entries with neither field contributing nothing, and when no entry has
    either field the result is unknown. -/
theorem C6_stock_sum (st : Nat) (d : InventoryJson) (bs : List BalanceEntry)
    (h2 : is2xx st = true) (hb : effBalances d = bs) :
    (bs.any entryHasField = true →
        get_stock_quantity_if_possible (.resp st (some d)) =
          (some ((bs.map entryContribution).sum),
           some (decide (0 < (bs.map entryContribution).sum)))) ∧
    (bs.any entryHasField = false →
        get_stock_quantity_if_possible (.resp st (some d)) = (none, none)) := by
  have h1 := (is2xx_facts st h2).1
  constructor
  · intro hany
    simp [get_stock_quantity_if_possible, h1, h2, sumBalances_eq, hb, hany]
  · intro hnone
    simp [get_stock_quantity_if_possible, h1, h2, sumBalances_eq, hb, hnone]

theorem C6_stock_sum_witness :
    get_stock_quantity_if_possible (.resp 200 (some invEx)) = (some 7, some true) := by
  have h := (C6_stock_sum 200 invEx (effBalances invEx) (by decide) rfl).1 (by decide)
  simpa [invEx, effBalances, pyOrListO, entryContribution] using h

/-! ### C4 -/

/-- Pricing data with no fixed prices and no base price. -/
def pdNoPrice : PricingJson :=
  { fixedPrices := none, FixedPrices := none, basePrice := none, BasePrice := none,
    listPrice := none, ListPrice := none }

/-- C4 counterexample: `pdZero` carries a fixed-price entry matching sales
    channel "1" whose `value` is 0, yet the resolver answers with the base
    price 50, not with the entry's value 0 — the Python `or` chain treats the
    zero value as absent. -/
theorem C4_counterexample :
    (effFixedList pdZero).find? (matchesChannel "1") = some fpZero ∧
    fpZero.value = some 0 ∧
    get_pricing_price_any_visibility "1" (.resp 200 (some pdZero)) =
      .ok { selling := 50, list := none } ∧
    (50 : ℚ) ≠ 0 := by
  refine ⟨rfl, rfl, ?_, by norm_num⟩
  simp +decide [get_pricing_price_any_visibility, pdZero, fpZero, priceEx, fpEx,
    effFixedList, pyOrListO, matchesChannel, fpTradePolicy, pyOrStrO, pyOrNumO, is2xx,
    (by norm_num : (50 : ℚ) ≠ 0)]

/-- C4 amended: on a parsed non-404 2xx pricing response the selling price is
    the Python `or` chain `value or Value` of the first fixed-price entry
    matching the sales channel when that chain yields a (nonzero-headed)
    value; when no matching entry exists or its chain yields `None` (so also
    when its price is the falsy 0), the `basePrice or BasePrice` chain is
    used; and when that too yields `None` the call fails 404 "no price
    configured". -/
theorem C4_amended_price_selection :
    (∀ (sc : String) (st : Nat) (d : PricingJson) (fp : FixedPrice) (v : ℚ),
        is2xx st = true → st ≠ 404 →
        (effFixedList d).find? (matchesChannel sc) = some fp →
        pyOrNumO fp.value fp.Value = some v →
        ∃ out, get_pricing_price_any_visibility sc (.resp st (some d)) = .ok out ∧
          out.selling = v) ∧
    (∀ (sc : String) (st : Nat) (d : PricingJson) (bp : ℚ),
        is2xx st = true → st ≠ 404 →
        sellingFromFixed sc d = none →
        pyOrNumO d.basePrice d.BasePrice = some bp →
        ∃ out, get_pricing_price_any_visibility sc (.resp st (some d)) = .ok out ∧
          out.selling = bp) ∧
    (∀ (sc : String) (st : Nat) (d : PricingJson),
        is2xx st = true → st ≠ 404 →
        sellingFromFixed sc d = none →
        pyOrNumO d.basePrice d.BasePrice = none →
        get_pricing_price_any_visibility sc (.resp st (some d)) =
          .error (.httpExc 404 "SKU sin precio configurado")) := by
  refine ⟨?_, ?_, ?_⟩
  · intro sc st d fp v h2 h4 hfind hval
    refine ⟨⟨v, pyOrNumO (pyOrNumO fp.listPrice fp.ListPrice)
      (pyOrNumO d.listPrice d.ListPrice)⟩, ?_, rfl⟩
    simp [get_pricing_price_any_visibility, h2, h4, hfind, hval]
  · intro sc st d bp h2 h4 hsf hbase
    unfold sellingFromFixed at hsf
    cases hfind : (effFixedList d).find? (matchesChannel sc) with
    | none =>
      refine ⟨⟨bp, pyOrNumO d.listPrice d.ListPrice⟩, ?_, rfl⟩
      simp [get_pricing_price_any_visibility, h2, h4, hfind, hbase]
    | some fp =>
      rw [hfind] at hsf
      dsimp only at hsf
      refine ⟨⟨bp, pyOrNumO (pyOrNumO fp.listPrice fp.ListPrice)
        (pyOrNumO d.listPrice d.ListPrice)⟩, ?_, rfl⟩
      simp [get_pricing_price_any_visibility, h2, h4, hfind, hsf, hbase]
  · intro sc st d h2 h4 hsf hbase
    unfold sellingFromFixed at hsf
    cases hfind : (effFixedList d).find? (matchesChannel sc) with
    | none =>
      simp [get_pricing_price_any_visibility, h2, h4, hfind, hbase]
    | some fp =>
      rw [hfind] at hsf
      dsimp only at hsf
      simp [get_pricing_price_any_visibility, h2, h4, hfind, hsf, hbase]

theorem C4_amended_price_selection_witness :
    (∃ out, get_pricing_price_any_visibility "1" (.resp 200 (some priceEx)) = .ok out ∧
        out.selling = (199.9 : ℚ)) ∧
    (∃ out, get_pricing_price_any_visibility "1" (.resp 200 (some pdZero)) = .ok out ∧
        out.selling = 50) ∧
    get_pricing_price_any_visibility "1" (.resp 200 (some pdNoPrice)) =
      .error (.httpExc 404 "SKU sin precio configurado") :=
  ⟨C4_amended_price_selection.1 "1" 200 priceEx fpEx (199.9 : ℚ) (by decide) (by decide)
      rfl (by simp [fpEx, pyOrNumO, (by norm_num : (199.9 : ℚ) ≠ 0)]),
   C4_amended_price_selection.2.1 "1" 200 pdZero 50 (by decide) (by decide)
      (by simp +decide [sellingFromFixed, pdZero, fpZero, priceEx, fpEx, effFixedList,
        pyOrListO, matchesChannel, fpTradePolicy, pyOrStrO, pyOrNumO])
      (by simp [pdZero, priceEx, pyOrNumO, (by norm_num : (50 : ℚ) ≠ 0)]),
   C4_amended_price_selection.2.2 "1" 200 pdNoPrice (by decide) (by decide) rfl rfl⟩

/-! ### C7 -/

/-- The upstream outcomes whose exceptions escape the handler: transport
    errors (including timeouts), non-2xx statuses other than the handled 404,
    and 2xx responses whose body does not parse. -/
def upstreamFailure {α : Type} : CallResult α → Prop
  | .netErr => True
  | .resp st body => (is2xx st = false ∧ st ≠ 404) ∨ (is2xx st = true ∧ body = none)

theorem get_sku_basic_exc (rc : CallResult SkuJson) (h : upstreamFailure rc) :
    get_sku_basic rc = .error .exc := by
  cases rc with
  | netErr => rfl
  | resp st body =>
    rcases h with ⟨h1, h2⟩ | ⟨h1, h2⟩
    · simp [get_sku_basic, h1, h2]
    · subst h2
      simp [get_sku_basic, h1, (is2xx_facts st h1).2]

theorem get_pricing_exc (sc : String) (rc : CallResult PricingJson)
    (h : upstreamFailure rc) :
    get_pricing_price_any_visibility sc rc = .error .exc := by
  cases rc with
  | netErr => rfl
  | resp st body =>
    rcases h with ⟨h1, h2⟩ | ⟨h1, h2⟩
    · simp [get_pricing_price_any_visibility, h1, h2]
    · subst h2
      simp [get_pricing_price_any_visibility, h1, (is2xx_facts st h1).2]

def oSku404 : Oracles := { oEx with skuResp := .resp 404 none }

def oPrice404 : Oracles := { oEx with priceResp := .resp 404 none }

def oPriceBad : Oracles := { oEx with priceResp := .resp 500 none }

/-- C7 counterexample: with a valid URL and a catalog endpoint answering 500,
    the handler ends in an uncaught `httpx` exception, surfaced by FastAPI as
    a 500 — not as the claimed 502 with upstream detail. -/
theorem C7_counterexample :
    resolve cfgEx urlOk oSku500 = .error .exc ∧
    statusOf (resolve cfgEx urlOk oSku500) = 500 ∧
    (500 : Nat) ≠ 502 := by
  have h : resolve cfgEx urlOk oSku500 = .error .exc :=
    resolve_of_sku_error cfgEx urlOk oSku500 12345 .exc (by rfl) (by decide) (by decide)
      (by rfl)
  exact ⟨h, by rw [h]; rfl, by decide⟩

/-- C7 amended: client input errors (disallowed or hostless URL, no
    resolvable identifier, identifier 0) are 400s; the handled upstream 404s
    (unknown SKU, pricing 404) are 404s; but every other upstream failure
    (transport error or timeout, other non-2xx status, malformed payload)
    escapes as an uncaught exception that surfaces as a 500 without upstream
    detail — never as the 502 of the claim. -/
theorem C7_amended_taxonomy :
    (∀ (cfg : Config) (u : ParsedUrl) (o : Oracles),
        pyLower u.netloc ≠ pyLower cfg.storeDomain →
        strEndsWith (pyLower u.netloc) ("." ++ pyLower cfg.storeDomain) = false →
        statusOf (resolve cfg u o) = 400) ∧
    (∀ (cfg : Config) (u : ParsedUrl) (o : Oracles),
        validate_domain cfg u = .ok () →
        (extract_sku_id_from_url u = none ∨ extract_sku_id_from_url u = some 0) →
        statusOf (resolve cfg u o) = 400) ∧
    (∀ (cfg : Config) (u : ParsedUrl) (o : Oracles) (n : Nat) (b : Option SkuJson),
        validate_domain cfg u = .ok () →
        extract_sku_id_from_url u = some n → n ≠ 0 →
        o.skuResp = .resp 404 b →
        resolve cfg u o = .error (.httpExc 404 "SKU no existe")) ∧
    (∀ (cfg : Config) (u : ParsedUrl) (o : Oracles) (n : Nat) (sj : SkuJson)
        (b : Option PricingJson),
        validate_domain cfg u = .ok () →
        extract_sku_id_from_url u = some n → n ≠ 0 →
        get_sku_basic o.skuResp = .ok sj →
        o.priceResp = .resp 404 b →
        resolve cfg u o = .error (.httpExc 404 "SKU sin precio configurado")) ∧
    (∀ (cfg : Config) (u : ParsedUrl) (o : Oracles) (n : Nat),
        validate_domain cfg u = .ok () →
        extract_sku_id_from_url u = some n → n ≠ 0 →
        upstreamFailure o.skuResp →
        resolve cfg u o = .error .exc ∧ statusOf (resolve cfg u o) = 500) ∧
    (∀ (cfg : Config) (u : ParsedUrl) (o : Oracles) (n : Nat) (sj : SkuJson),
        validate_domain cfg u = .ok () →
        extract_sku_id_from_url u = some n → n ≠ 0 →
        get_sku_basic o.skuResp = .ok sj →
        upstreamFailure o.priceResp →
        resolve cfg u o = .error .exc ∧ statusOf (resolve cfg u o) = 500) := by
  refine ⟨?_, ?_, ?_, ?_, ?_, ?_⟩
  · intro cfg u o ha hb
    rw [resolve_of_validate_error cfg u o _ (validate_domain_mismatch cfg u ha hb)]
    rfl
  · intro cfg u o hdom hext
    rcases hext with hext | hext
    · have h : resolve cfg u o = .error (.httpExc 400 noSkuDetail) := by
        simp [resolve, hdom, hext]
      rw [h]; rfl
    · have h : resolve cfg u o = .error (.httpExc 400 noSkuDetail) := by
        simp [resolve, hdom, hext]
      rw [h]; rfl
  · intro cfg u o n b hdom hext hn hresp
    have hsk : get_sku_basic o.skuResp = .error (.httpExc 404 "SKU no existe") := by
      rw [hresp]; simp [get_sku_basic]
    exact resolve_of_sku_error cfg u o n _ hdom hext hn hsk
  · intro cfg u o n sj b hdom hext hn hsku hresp
    have hp : get_pricing_price_any_visibility cfg.salesChannel o.priceResp =
        .error (.httpExc 404 "SKU sin precio configurado") := by
      rw [hresp]; simp [get_pricing_price_any_visibility]
    exact resolve_of_pricing_error cfg u o n sj _ hdom hext hn hsku hp
  · intro cfg u o n hdom hext hn hup
    have h := resolve_of_sku_error cfg u o n .exc hdom hext hn (get_sku_basic_exc _ hup)
    exact ⟨h, by rw [h]; rfl⟩
  · intro cfg u o n sj hdom hext hn hsku hup
    have h := resolve_of_pricing_error cfg u o n sj .exc hdom hext hn hsku
      (get_pricing_exc _ _ hup)
    exact ⟨h, by rw [h]; rfl⟩

theorem C7_amended_taxonomy_witness :
    statusOf (resolve cfgEx urlBad oEx) = 400 ∧
    statusOf (resolve cfgEx urlNoId oEx) = 400 ∧
    resolve cfgEx urlOk oSku404 = .error (.httpExc 404 "SKU no existe") ∧
    resolve cfgEx urlOk oPrice404 = .error (.httpExc 404 "SKU sin precio configurado") ∧
    statusOf (resolve cfgEx urlOk oSku500) = 500 ∧
    statusOf (resolve cfgEx urlOk oPriceBad) = 500 :=
  ⟨C7_amended_taxonomy.1 cfgEx urlBad oEx (by decide) (by decide),
   C7_amended_taxonomy.2.1 cfgEx urlNoId oEx (by rfl) (Or.inl (by decide)),
   C7_amended_taxonomy.2.2.1 cfgEx urlOk oSku404 12345 none (by rfl) (by decide)
     (by decide) rfl,
   C7_amended_taxonomy.2.2.2.1 cfgEx urlOk oPrice404 12345 skuEx none (by rfl)
     (by decide) (by decide) (by rfl) rfl,
   (C7_amended_taxonomy.2.2.2.2.1 cfgEx urlOk oSku500 12345 (by rfl) (by decide)
     (by decide) (Or.inl (by decide))).2,
   (C7_amended_taxonomy.2.2.2.2.2 cfgEx urlOk oPriceBad 12345 skuEx (by rfl)
     (by decide) (by decide) (by rfl) (Or.inl (by decide))).2⟩

end Kiosco
